import Mathlib

/-!
# Verification of the `mlrun_mpijob_pipe` notebook

A shallow embedding of `src/notebooks/mlrun_mpijob_pipe.ipynb`, the single
source file of the repository.  The notebook is orchestration glue: it builds
MLRun function descriptors, fetches a previously registered Horovod training
function from the MLRun database, declares a four-step Kubeflow pipeline,
compiles it, submits it, and queries the run database for status.

The embedding has three layers, each transcribed from the notebook:
* the data model: function descriptors and pipeline steps;
* the pipeline declaration `hvd_pipeline` (notebook cell 17) as a Lean
  function of the pipeline's six parameters;
* the notebook's top-level sequence of client-API calls as a trace
  (`notebookTrace`) together with a small interpreter (`applyOp`) that
  accumulates the notebook's state (built functions, applied mounts,
  compilation, submission, database queries).
-/

set_option autoImplicit false

namespace MlrunPipeNotebook

/-- A value appearing in a pipeline step's `params`, `inputs` or `models`
mapping: a string literal, an integer literal, or a reference
`<step>.outputs[<name>]` to a named output of another step. -/
inductive PValue where
  | str (s : String)
  | int (n : Int)
  | outputOf (step output : String)
deriving DecidableEq, Repr

/-- One entry of a function descriptor's `volume_mounts` list, e.g.
`{'mountPath': '/User', 'name': 'v3io'}`. -/
structure VolumeMount where
  mountPath : String
  volName : String
deriving DecidableEq, Repr

/-- A function descriptor: the serialized record describing how to run one
step (source file or command, image, resources, mounts), as built by
`code_to_function` / `new_model_server` or stored in the MLRun database.
Fields not applicable to a given runtime are `none` / `[]`.  The notebook's
mutations (`apply(mount_v3io())`, `with_http`, `deploy`) update the
`mounts`, `http_workers` and `deployed` fields. -/
structure FunctionDescriptor where
  fname : String
  kind : String
  filename : Option String
  image : Option String
  command : Option String
  replicas : Option Nat
  volumes : List String
  volume_mounts : List VolumeMount
  mounts : List String
  http_workers : Option Nat
  model_class : Option String
  deployed : Bool
deriving DecidableEq, Repr

/-- The descriptor of the previously registered Horovod training function,
transcribed from the record shown in the notebook's recorded output of
`trainer_fn.to_dict()` (cell 10): kind `mpijob`, image `mlrun/mpijob:latest`,
command the Horovod training script path, 4 replicas, and a `v3io` volume
mounted at `/User`.  (The record's env-var list and flexVolume access options
are connection details of the same `v3io` volume and are represented by the
volume's name.) -/
def horovodTrainer : FunctionDescriptor :=
  { fname := "horovod-trainer"
    kind := "mpijob"
    filename := none
    image := some "mlrun/mpijob:latest"
    command := some "/User/demo-image-classification/src/horovod-training.py"
    replicas := some 4
    volumes := ["v3io"]
    volume_mounts := [{ mountPath := "/User", volName := "v3io" }]
    mounts := []
    http_workers := none
    model_class := none
    deployed := false }

/-- The MLRun function database as visible to the notebook: it holds the
previously registered training function under the key used by
`import_function('db://horovod-trainer')` (cell 10). -/
def mlrunDB : List (String × FunctionDescriptor) :=
  [("db://horovod-trainer", horovodTrainer)]

/-- A pipeline step produced by `<fn>.as_step(...)` (cells 17): the backing
function descriptor's name, the handler to invoke, the output path, params,
inputs, declared outputs, explicit `.after(...)` dependencies, and
credentials applied at step level via `.apply(...)`. -/
structure Step where
  name : String
  fn : String
  handler : Option String
  out_path : Option String
  params : List (String × PValue)
  inputs : List (String × PValue)
  outputs : List String
  after : List String
  applied : List String
deriving DecidableEq, Repr

/-- A deployment step produced by `<fn>.deploy_step(...)` (cell 17): the
backing function descriptor's name, the target project, and the models
mapping `{<model_name>: <model file or step output>}`. -/
structure DeployStep where
  fn : String
  project : String
  models : List (String × PValue)
deriving DecidableEq, Repr

/-- A step of the declared pipeline: either a containerized function
invocation or a model-server deployment. -/
inductive PipelineStep where
  | run (s : Step)
  | deploy (d : DeployStep)
deriving DecidableEq, Repr

/-- The `open_archive` step of `hvd_pipeline` (cell 17):
`utilsfn.as_step(name='download', handler='open_archive',
out_path=images_path, params={'target_dir': images_path},
inputs={'archive_url': image_archive}, outputs=['content'])`. -/
def open_archive (images_path image_archive : String) : Step :=
  { name := "download"
    fn := "file_utils"
    handler := some "open_archive"
    out_path := some images_path
    params := [("target_dir", .str images_path)]
    inputs := [("archive_url", .str image_archive)]
    outputs := ["content"]
    after := []
    applied := [] }

/-- The `label` step of `hvd_pipeline` (cell 17):
`utilsfn.as_step(name='label', handler='categories_map_builder',
out_path=images_path, params={'source_dir': source_dir},
outputs=['categories_map', 'file_categories']).after(open_archive)`. -/
def label (images_path source_dir : String) : Step :=
  { name := "label"
    fn := "file_utils"
    handler := some "categories_map_builder"
    out_path := some images_path
    params := [("source_dir", .str source_dir)]
    inputs := []
    outputs := ["categories_map", "file_categories"]
    after := ["download"]
    applied := [] }

/-- The `train` step of `hvd_pipeline` (cell 17):
`trainer_fn.as_step(name='train', params={'epochs': 1, 'checkpoints_dir':
checkpoints_dir, 'model_path': model_path, 'data_path': source_dir},
inputs={'categories_map': label.outputs['categories_map'],
'file_categories': label.outputs['file_categories']},
outputs=['model']).apply(v3io_cred())`. -/
def train (checkpoints_dir model_path source_dir : String) : Step :=
  { name := "train"
    fn := "horovod-trainer"
    handler := none
    out_path := none
    params := [("epochs", .int 1),
               ("checkpoints_dir", .str checkpoints_dir),
               ("model_path", .str model_path),
               ("data_path", .str source_dir)]
    inputs := [("categories_map", .outputOf "label" "categories_map"),
               ("file_categories", .outputOf "label" "file_categories")]
    outputs := ["model"]
    after := []
    applied := ["v3io_cred"] }

/-- The `deploy` step of `hvd_pipeline` (cell 17):
`inference_function.deploy_step(project='nuclio-serving',
models={model_name: train.outputs['model']})`. -/
def deploy (model_name : String) : DeployStep :=
  { fn := "tf-images-server"
    project := "nuclio-serving"
    models := [(model_name, .outputOf "train" "model")] }

/-- The pipeline declared by `@dsl.pipeline ... def hvd_pipeline(...)`
(cell 17), as the ordered list of its steps, parameterized exactly by the
pipeline's six parameters. -/
def hvd_pipeline (image_archive images_path source_dir checkpoints_dir
    model_path model_name : String) : List PipelineStep :=
  [.run (open_archive images_path image_archive),
   .run (label images_path source_dir),
   .run (train checkpoints_dir model_path source_dir),
   .deploy (deploy model_name)]

/-- Default of the pipeline parameter `image_archive` (cell 17). -/
def default_image_archive : String :=
  "http://iguazio-sample-data.s3.amazonaws.com/catsndogs.zip"

/-- Default of the pipeline parameter `images_path` (cell 17). -/
def default_images_path : String := "/User/mlrun/examples/images"

/-- Default of the pipeline parameter `source_dir` (cell 17). -/
def default_source_dir : String := "/User/mlrun/examples/images/cats_n_dogs"

/-- Default of the pipeline parameter `checkpoints_dir` (cell 17). -/
def default_checkpoints_dir : String := "/User/mlrun/examples/checkpoints"

/-- Default of the pipeline parameter `model_path` (cell 17). -/
def default_model_path : String := "/User/mlrun/examples/models/cats_n_dogs.h5"

/-- Default of the pipeline parameter `model_name` (cell 17). -/
def default_model_name : String := "cat_vs_dog_v1"

/-- `hvd_pipeline` invoked with its default arguments, as happens when the
notebook submits the run with `arguments = {}` (cell 19). -/
def hvd_pipeline_default : List PipelineStep :=
  hvd_pipeline default_image_archive default_images_path default_source_dir
    default_checkpoints_dir default_model_path default_model_name

/-- Where the logic behind a notebook operation lives: the MLRun SDK, the
Kubeflow Pipelines SDK, or the notebook itself (`selfImplemented` would mark
data processing, scheduling or training logic implemented in the
repository). -/
inductive Provider where
  | mlrun
  | kfp
  | selfImplemented
deriving DecidableEq, Repr

/-- One top-level client-API call performed by the notebook.  Each
constructor corresponds to one call in the notebook's cells, with the
call's literal arguments. -/
inductive NotebookOp where
  | set_dbpath (url : String)
  | code_to_function (name filename image kind : String)
  | apply_mount (fn mount : String)
  | deploy_fn (fn : String)
  | export_fn (fn path : String)
  | import_function (var key : String)
  | new_model_server (name filename model_class : String)
  | with_http (fn : String) (workers : Nat)
  | declare_pipeline (name : String)
  | compile_pipeline (pipeline target : String)
  | create_run (experiment : String)
  | connect_db
  | list_runs (project labels : String)
deriving DecidableEq, Repr

/-- The notebook's top-level sequence of client-API calls, in cell order.
`runId` is the id of the run created by
`client.create_run_from_pipeline_func` (cell 19), which the notebook reads
back as `run_result.run_id` and interpolates into the label filter of
`db.list_runs` (cell 21). -/
def notebookTrace (runId : String) : List NotebookOp :=
  [ -- cell 2: mlconf.dbpath = 'http://mlrun-api:8080'
   .set_dbpath "http://mlrun-api:8080",
   -- cell 6: utilsfn = code_to_function(name='file_utils', ...)
   .code_to_function "file_utils" "../src/utils.py" "mlrun/mlrun:latest" "job",
   -- cell 6: utilsfn.apply(mount_v3io())
   .apply_mount "file_utils" "v3io",
   -- cell 6: utilsfn.deploy()
   .deploy_fn "file_utils",
   -- cell 7: utilsfn.export('../yaml/utils.yaml')
   .export_fn "file_utils" "../yaml/utils.yaml",
   -- cell 10: trainer_fn = import_function('db://horovod-trainer')
   .import_function "trainer_fn" "db://horovod-trainer",
   -- cell 12: inference_function = new_model_server('tf-images-server', ...)
   .new_model_server "tf-images-server" "./nuclio-serving-tf-images.ipynb" "TFModel",
   -- cell 12: inference_function.with_http(workers=2)
   .with_http "tf-images-server" 2,
   -- cell 12: inference_function.apply(mount_v3io())
   .apply_mount "tf-images-server" "v3io",
   -- cell 17: @dsl.pipeline ... def hvd_pipeline(...)
   .declare_pipeline "hvd_pipeline",
   -- cell 18: kfp.compiler.Compiler().compile(hvd_pipeline, 'hvd_pipeline.yaml')
   .compile_pipeline "hvd_pipeline" "hvd_pipeline.yaml",
   -- cell 19: run_result = client.create_run_from_pipeline_func(hvd_pipeline,
   --          arguments, experiment_name='horovod1')
   .create_run "horovod1",
   -- cell 20: db = get_run_db().connect()
   .connect_db,
   -- cell 21: db.list_runs('', labels=f'workflow=<run_result.run_id>').show()
   .list_runs "" ("workflow=" ++ runId)]

/-- The notebook's accumulated state: the configured DB path, the function
descriptors built or fetched so far (keyed by function name), the exported
spec files, the compiled pipeline package, the id of the submitted run, the
run-DB connection flag, and the run-DB queries issued (project filter,
labels filter). -/
structure NotebookState where
  dbpath : Option String
  functions : List (String × FunctionDescriptor)
  exports : List (String × String)
  compiled : Option String
  submitted : Option String
  dbConnected : Bool
  queries : List (String × String)
deriving DecidableEq, Repr

/-- The state before any cell has run. -/
def initState : NotebookState :=
  { dbpath := none, functions := [], exports := [], compiled := none,
    submitted := none, dbConnected := false, queries := [] }

/-- Update the descriptor registered under `fname`, if any. -/
def updateFn (fns : List (String × FunctionDescriptor)) (fname : String)
    (f : FunctionDescriptor → FunctionDescriptor) :
    List (String × FunctionDescriptor) :=
  fns.map fun p => if p.1 == fname then (p.1, f p.2) else p

/-- Interpret one notebook operation: `code_to_function` registers a new
job-runtime descriptor built from a python file; `apply_mount` appends a
mount; `deploy_fn` marks the image built; `import_function` fetches a
descriptor from `mlrunDB` and registers it under its own name;
`new_model_server` registers a remote (nuclio) runtime built from a notebook
file; `with_http` sets the HTTP worker count; `compile_pipeline`,
`create_run`, `connect_db` and `list_runs` record the compilation,
submission (with the externally assigned `runId`), connection and query. -/
def applyOp (runId : String) (s : NotebookState) : NotebookOp → NotebookState
  | .set_dbpath url => { s with dbpath := some url }
  | .code_to_function name filename image kind =>
      { s with functions := s.functions ++
          [(name, { fname := name, kind := kind, filename := some filename,
                    image := some image, command := none, replicas := none,
                    volumes := [], volume_mounts := [], mounts := [],
                    http_workers := none, model_class := none,
                    deployed := false })] }
  | .apply_mount fn mount =>
      let upd := fun d => { d with mounts := d.mounts ++ [mount] }
      { s with functions := updateFn s.functions fn upd }
  | .deploy_fn fn =>
      let upd := fun d => { d with deployed := true }
      { s with functions := updateFn s.functions fn upd }
  | .export_fn fn path => { s with exports := s.exports ++ [(fn, path)] }
  | .import_function _ key =>
      match mlrunDB.lookup key with
      | some d => { s with functions := s.functions ++ [(d.fname, d)] }
      | none => s
  | .new_model_server name filename model_class =>
      { s with functions := s.functions ++
          [(name, { fname := name, kind := "remote", filename := some filename,
                    image := none, command := none, replicas := none,
                    volumes := [], volume_mounts := [], mounts := [],
                    http_workers := none, model_class := some model_class,
                    deployed := false })] }
  | .with_http fn workers =>
      let upd := fun d => { d with http_workers := some workers }
      { s with functions := updateFn s.functions fn upd }
  | .declare_pipeline _ => s
  | .compile_pipeline _ target => { s with compiled := some target }
  | .create_run _ => { s with submitted := some runId }
  | .connect_db => { s with dbConnected := true }
  | .list_runs project labels =>
      { s with queries := s.queries ++ [(project, labels)] }

/-- The notebook's state after all cells have run. -/
def finalState (runId : String) : NotebookState :=
  (notebookTrace runId).foldl (applyOp runId) initState

/-- The platform whose client API a notebook operation calls: `mlconf`,
`code_to_function`, `apply(mount_v3io())`, `deploy`, `export`,
`import_function`, `new_model_server`, `with_http`, `get_run_db().connect`
and `list_runs` are MLRun SDK calls; the `dsl.pipeline` declaration,
`kfp.compiler.Compiler().compile` and `client.create_run_from_pipeline_func`
are Kubeflow Pipelines SDK calls. -/
def provider : NotebookOp → Provider
  | .set_dbpath _ => .mlrun
  | .code_to_function _ _ _ _ => .mlrun
  | .apply_mount _ _ => .mlrun
  | .deploy_fn _ => .mlrun
  | .export_fn _ _ => .mlrun
  | .import_function _ _ => .mlrun
  | .new_model_server _ _ _ => .mlrun
  | .with_http _ _ => .mlrun
  | .declare_pipeline _ => .kfp
  | .compile_pipeline _ _ => .kfp
  | .create_run _ => .kfp
  | .connect_db => .mlrun
  | .list_runs _ _ => .mlrun

/-- An operation that is a call into an external platform's published
client API rather than logic implemented by the notebook. -/
def isExternalPlatformCall (op : NotebookOp) : Bool :=
  match provider op with
  | .mlrun => true
  | .kfp => true
  | .selfImplemented => false

/-- A pipeline step is backed by a function descriptor registered in the
notebook state (so its work is delegated to the platform running that
function, not implemented in the pipeline body). -/
def stepBacked (fns : List (String × FunctionDescriptor)) : PipelineStep → Bool
  | .run s => (fns.lookup s.fn).isSome
  | .deploy d => (fns.lookup d.fn).isSome

/-- Operations that build a function descriptor from a source file:
`code_to_function` (from a python file) and `new_model_server` (from a
notebook file). -/
def isDescriptorBuild : NotebookOp → Bool
  | .code_to_function _ _ _ _ => true
  | .new_model_server _ _ _ => true
  | _ => false

/-- Operations that build a descriptor via `code_to_function`. -/
def isCodeToFunction : NotebookOp → Bool
  | .code_to_function _ _ _ _ => true
  | _ => false

/-- Operations that fetch a registered function from the database. -/
def isDbFetch : NotebookOp → Bool
  | .import_function _ _ => true
  | _ => false

/-- Operations that build a descriptor via `new_model_server`. -/
def isNewModelServer : NotebookOp → Bool
  | .new_model_server _ _ _ => true
  | _ => false

/-- The pipeline-declaration operation. -/
def isDeclarePipeline : NotebookOp → Bool
  | .declare_pipeline _ => true
  | _ => false

/-- The pipeline-compilation operation. -/
def isCompilePipeline : NotebookOp → Bool
  | .compile_pipeline _ _ => true
  | _ => false

/-- The pipeline-submission operation. -/
def isCreateRun : NotebookOp → Bool
  | .create_run _ => true
  | _ => false

/-- The run-database connection operation. -/
def isConnectDb : NotebookOp → Bool
  | .connect_db => true
  | _ => false

/-- The run-database query operation. -/
def isListRuns : NotebookOp → Bool
  | .list_runs _ _ => true
  | _ => false

/-- `allBefore p q t`: in the trace `t`, every `p`-operation occurs before
every `q`-operation (equivalently: no `p`-operation at or after a
`q`-operation). -/
def allBefore (p q : NotebookOp → Bool) : List NotebookOp → Bool
  | [] => true
  | op :: rest =>
      (!q op || rest.all (fun o => !p o) && !p op) && allBefore p q rest

/-- The consecutive pairs of a trace, in order. -/
def adjacentPairs : List NotebookOp → List (NotebookOp × NotebookOp)
  | a :: b :: rest => (a, b) :: adjacentPairs (b :: rest)
  | _ => []

/-- Does `op` construct the function named `fname` (via `code_to_function`
or `new_model_server`)? -/
def buildsFn (fname : String) : NotebookOp → Bool
  | .code_to_function n _ _ _ => n == fname
  | .new_model_server n _ _ => n == fname
  | _ => false

/-- Does `op` apply the `v3io` mount to the function named `fname`? -/
def appliesV3ioMount (fname : String) : NotebookOp → Bool
  | .apply_mount n m => n == fname && m == "v3io"
  | _ => false

/-- In the trace `t`, the operation immediately after the construction of
`fname` applies the `v3io` mount to it. -/
def mountRightAfterBuild (fname : String) (t : List NotebookOp) : Bool :=
  (adjacentPairs t).any fun pr => buildsFn fname pr.1 && appliesV3ioMount fname pr.2

/-- A pipeline step has data-fabric (v3io) access if it has the `v3io_cred`
credential applied at step level, or its backing function descriptor has a
`v3io` mount applied or carries a `v3io` volume mount. -/
def stepHasV3io (fns : List (String × FunctionDescriptor)) : PipelineStep → Bool
  | .run s =>
      s.applied.contains "v3io_cred" ||
      (match fns.lookup s.fn with
       | some d => d.mounts.contains "v3io" || d.volume_mounts.any (fun v => v.volName == "v3io")
       | none => false)
  | .deploy d =>
      match fns.lookup d.fn with
      | some dd => dd.mounts.contains "v3io" || dd.volume_mounts.any (fun v => v.volName == "v3io")
      | none => false

/-- A run record in the run database: its uid and its labels, each label a
`key=value` string. -/
structure RunRecord where
  uid : String
  labels : List String
deriving DecidableEq, Repr

/-- Modelled from the spec: the run database's `list_runs` query with a
label filter ("query a run database for status", filtering "only show this
workflow").  The run database is part of the external MLRun service, not of
this repository; per the spec it returns the stored runs restricted to those
carrying the requested label. -/
def listRunsFiltered (runs : List RunRecord) (lbl : String) : List RunRecord :=
  runs.filter fun r => r.labels.contains lbl

/-- The operation order asserted by the spec's summary sentence: every
descriptor build before the database fetch, the fetch before the pipeline
declaration, the declaration before compilation, compilation before
submission, and submission before the run-database query. -/
def specSummaryOrder (t : List NotebookOp) : Bool :=
  allBefore isDescriptorBuild isDbFetch t &&
  allBefore isDbFetch isDeclarePipeline t &&
  allBefore isDeclarePipeline isCompilePipeline t &&
  allBefore isCompilePipeline isCreateRun t &&
  allBefore isCreateRun isListRuns t

/-- The operation order the notebook actually follows: the
`code_to_function` build before the database fetch, the fetch before the
`new_model_server` build, that build before the pipeline declaration, the
declaration before compilation, compilation before submission, and
submission before the run-database query. -/
def actualNotebookOrder (t : List NotebookOp) : Bool :=
  allBefore isCodeToFunction isDbFetch t &&
  allBefore isDbFetch isNewModelServer t &&
  allBefore isNewModelServer isDeclarePipeline t &&
  allBefore isDeclarePipeline isCompilePipeline t &&
  allBefore isCompilePipeline isCreateRun t &&
  allBefore isCreateRun isListRuns t

/-- The invariant asserted for data-fabric access, as claimed: both
source-built functions get `mount_v3io()` applied immediately after
construction, the training step carries `v3io_cred`, and every step of the
(default-argument) pipeline has v3io access. -/
def claimedMountDiscipline (runId : String) : Bool :=
  mountRightAfterBuild "file_utils" (notebookTrace runId) &&
  mountRightAfterBuild "tf-images-server" (notebookTrace runId) &&
  (train default_checkpoints_dir default_model_path
    default_source_dir).applied.contains "v3io_cred" &&
  hvd_pipeline_default.all (stepHasV3io (finalState runId).functions)

/-- The download and label steps agree on every step field other than their
names (which the claim states explicitly), handlers, params, inputs and
outputs: same backing function, same output path, same dependency list,
same applied credentials. -/
def agreesOutsideHandlerParamsInputsOutputs (s t : Step) : Bool :=
  s.fn == t.fn && s.out_path == t.out_path && s.after == t.after &&
  s.applied == t.applied

/-- A concrete run record carrying the label of workflow `run-1`, used to
exercise the run-database query model. -/
def sampleRun : RunRecord :=
  { uid := "uid-1", labels := ["workflow=run-1", "kind=job"] }

/-- C1: for every choice of pipeline arguments, `hvd_pipeline` declares
exactly four steps in order — the archive-download step `download`, the
label-index step `label`, the distributed-training step `train`, and the
model-deployment step — where `label` is declared to run after `download`,
`train` consumes the `categories_map` and `file_categories` outputs of
`label` (both of which `label` declares), and the deploy step's models
mapping consumes the `model` output of `train`. -/
theorem c1_pipeline_four_steps (ia ip sd cd mp mn : String) :
    hvd_pipeline ia ip sd cd mp mn =
      [.run (open_archive ip ia), .run (label ip sd),
       .run (train cd mp sd), .deploy (deploy mn)] ∧
    (hvd_pipeline ia ip sd cd mp mn).length = 4 ∧
    (open_archive ip ia).name = "download" ∧
    (open_archive ip ia).handler = some "open_archive" ∧
    (label ip sd).name = "label" ∧
    (label ip sd).after = ["download"] ∧
    (train cd mp sd).name = "train" ∧
    (train cd mp sd).inputs =
      [("categories_map", .outputOf "label" "categories_map"),
       ("file_categories", .outputOf "label" "file_categories")] ∧
    (label ip sd).outputs = ["categories_map", "file_categories"] ∧
    (deploy mn).models = [(mn, .outputOf "train" "model")] ∧
    "model" ∈ (train cd mp sd).outputs := by
  refine ⟨rfl, rfl, rfl, rfl, rfl, rfl, rfl, rfl, rfl, rfl, ?_⟩
  simp [train]

/-- C2: the key `db://horovod-trainer` resolves in the MLRun database to the
previously registered training function, which the notebook's
`import_function` call registers in its state; its descriptor is a record
with kind `mpijob`, image `mlrun/mpijob:latest`, the Horovod training
script as command, 4 replicas, and a `v3io` volume mounted at `/User`. -/
theorem c2_trainer_descriptor (runId : String) :
    mlrunDB.lookup "db://horovod-trainer" = some horovodTrainer ∧
    (NotebookOp.import_function "trainer_fn" "db://horovod-trainer")
      ∈ notebookTrace runId ∧
    (finalState runId).functions.lookup "horovod-trainer" = some horovodTrainer ∧
    horovodTrainer.kind = "mpijob" ∧
    horovodTrainer.image = some "mlrun/mpijob:latest" ∧
    horovodTrainer.command =
      some "/User/demo-image-classification/src/horovod-training.py" ∧
    horovodTrainer.replicas = some 4 ∧
    horovodTrainer.volume_mounts = [{ mountPath := "/User", volName := "v3io" }] := by
  refine ⟨rfl, ?_, rfl, rfl, rfl, rfl, rfl, rfl⟩
  simp [notebookTrace]

/-- C3: the model-deployment step deploys the model server
`tf-images-server` — configured as an HTTP service with 2 workers — and its
models mapping binds the model name to the `model` output of the `train`
step, which is the only output `train` declares, so the served model is the
artifact produced by training. -/
theorem c3_deploy_serves_trained_model (ia ip sd cd mp mn runId : String) :
    (hvd_pipeline ia ip sd cd mp mn).getLast? = some (.deploy (deploy mn)) ∧
    (deploy mn).fn = "tf-images-server" ∧
    (deploy mn).models = [(mn, .outputOf "train" "model")] ∧
    (train cd mp sd).name = "train" ∧
    (train cd mp sd).outputs = ["model"] ∧
    (finalState runId).functions.lookup "tf-images-server" =
      some { fname := "tf-images-server", kind := "remote",
             filename := some "./nuclio-serving-tf-images.ipynb",
             image := none, command := none, replicas := none,
             volumes := [], volume_mounts := [], mounts := ["v3io"],
             http_workers := some 2, model_class := some "TFModel",
             deployed := false } :=
  ⟨rfl, rfl, rfl, rfl, rfl, rfl⟩

/-- C4 counterexample: the claimed fixed order — all descriptor builds,
then the database fetch, then declaration, compilation, submission and
query — is violated by the notebook: the model-server descriptor build
(`new_model_server`, cell 12) happens after the database fetch
(`import_function`, cell 10). -/
theorem c4_counterexample :
    specSummaryOrder (notebookTrace "run-0") = false := by rfl

/-- C4 (amended): the notebook builds the utility-function descriptor, then
fetches the registered training function from the database, then builds the
model-server descriptor, then declares the pipeline, then compiles it, then
submits it, and finally queries the run database; in particular compilation
happens before submission and the run-database query after submission. -/
theorem c4_amended_order (runId : String) :
    actualNotebookOrder (notebookTrace runId) = true ∧
    allBefore isCompilePipeline isCreateRun (notebookTrace runId) = true ∧
    allBefore isCreateRun isListRuns (notebookTrace runId) = true :=
  ⟨rfl, rfl, rfl⟩

/-- C5: after submission the notebook's state records the created run's id,
the run-DB connection, and exactly one query whose label filter is
`workflow=<run id>` for that id; connection and query both come after
submission in the trace; and any record returned by the label-filtered
query carries the `workflow=<run id>` label, i.e. belongs to the submitted
workflow. -/
theorem c5_run_query_filtered (runId : String) (runs : List RunRecord)
    (r : RunRecord) (hr : r ∈ listRunsFiltered runs ("workflow=" ++ runId)) :
    (finalState runId).submitted = some runId ∧
    (finalState runId).dbConnected = true ∧
    (finalState runId).queries = [("", "workflow=" ++ runId)] ∧
    allBefore isCreateRun isConnectDb (notebookTrace runId) = true ∧
    allBefore isConnectDb isListRuns (notebookTrace runId) = true ∧
    r.labels.contains ("workflow=" ++ runId) = true := by
  refine ⟨rfl, rfl, rfl, rfl, rfl, ?_⟩
  exact (List.mem_filter.mp hr).2

/-- C5 witness: at run id `run-1` and a one-record database, the query
model returns the record and the theorem applies. -/
theorem c5_witness :
    sampleRun ∈ listRunsFiltered [sampleRun] ("workflow=" ++ "run-1") ∧
    ((finalState "run-1").submitted = some "run-1" ∧
     (finalState "run-1").dbConnected = true ∧
     (finalState "run-1").queries = [("", "workflow=" ++ "run-1")] ∧
     allBefore isCreateRun isConnectDb (notebookTrace "run-1") = true ∧
     allBefore isConnectDb isListRuns (notebookTrace "run-1") = true ∧
     sampleRun.labels.contains ("workflow=" ++ "run-1") = true) :=
  ⟨by decide, c5_run_query_filtered "run-1" [sampleRun] sampleRun (by decide)⟩

/-- C6: function descriptors are built from source files — `file_utils` via
`code_to_function` from the python file `../src/utils.py` with image
`mlrun/mlrun:latest` and kind `job`, its image then built by `deploy()`
(`deployed = true`); and `tf-images-server` via `new_model_server` from the
notebook file `./nuclio-serving-tf-images.ipynb` with model class
`TFModel`. -/
theorem c6_descriptors_built_from_source (runId : String) :
    (NotebookOp.code_to_function "file_utils" "../src/utils.py"
      "mlrun/mlrun:latest" "job") ∈ notebookTrace runId ∧
    (NotebookOp.deploy_fn "file_utils") ∈ notebookTrace runId ∧
    (NotebookOp.new_model_server "tf-images-server"
      "./nuclio-serving-tf-images.ipynb" "TFModel") ∈ notebookTrace runId ∧
    (finalState runId).functions.lookup "file_utils" =
      some { fname := "file_utils", kind := "job",
             filename := some "../src/utils.py",
             image := some "mlrun/mlrun:latest", command := none,
             replicas := none, volumes := [], volume_mounts := [],
             mounts := ["v3io"], http_workers := none, model_class := none,
             deployed := true } ∧
    (finalState runId).functions.lookup "tf-images-server" =
      some { fname := "tf-images-server", kind := "remote",
             filename := some "./nuclio-serving-tf-images.ipynb",
             image := none, command := none, replicas := none,
             volumes := [], volume_mounts := [], mounts := ["v3io"],
             http_workers := some 2, model_class := some "TFModel",
             deployed := false } := by
  refine ⟨?_, ?_, ?_, rfl, rfl⟩ <;> simp [notebookTrace]

/-- C7: every operation the notebook performs is a call into the external
platforms' published client APIs (MLRun or Kubeflow Pipelines) — none is
logic implemented by the repository — and every step of the declared
pipeline is backed by a function descriptor registered through those APIs,
so the notebook itself implements no data processing, scheduling, or
training logic. -/
theorem c7_all_operations_delegated (runId ia ip sd cd mp mn : String) :
    (notebookTrace runId).all isExternalPlatformCall = true ∧
    (hvd_pipeline ia ip sd cd mp mn).all
      (stepBacked (finalState runId).functions) = true :=
  ⟨rfl, rfl⟩

/-- C8 counterexample: the claimed mount discipline fails as stated — the
model-server function does not have `mount_v3io()` applied in the operation
immediately after its construction, since `with_http(workers=2)` runs in
between (cell 12). -/
theorem c8_counterexample :
    claimedMountDiscipline "run-0" = false := by decide

/-- C8 (amended): the utility function has `mount_v3io()` applied
immediately after construction; the model-server function has
`mount_v3io()` applied during its setup (after `with_http`), still before
the pipeline is declared; the training step has `v3io_cred` applied at
step-declaration time; and every step of the pipeline has a v3io mount or
credential. -/
theorem c8_amended_mount_discipline (runId ia ip sd cd mp mn : String) :
    mountRightAfterBuild "file_utils" (notebookTrace runId) = true ∧
    (notebookTrace runId).any (appliesV3ioMount "tf-images-server") = true ∧
    allBefore (appliesV3ioMount "tf-images-server") isDeclarePipeline
      (notebookTrace runId) = true ∧
    (train cd mp sd).applied = ["v3io_cred"] ∧
    (hvd_pipeline ia ip sd cd mp mn).all
      (stepHasV3io (finalState runId).functions) = true :=
  ⟨rfl, rfl, rfl, rfl, rfl⟩

/-- C9: with its default arguments, the pipeline's download step fetches
the archive `http://iguazio-sample-data.s3.amazonaws.com/catsndogs.zip`
into `/User/mlrun/examples/images`, the training step runs with params
`epochs = 1`, checkpoints dir `/User/mlrun/examples/checkpoints` and model
path `/User/mlrun/examples/models/cats_n_dogs.h5`, the model is deployed
under the name `cat_vs_dog_v1`, and both the download and label steps write
their outputs under the `images_path` argument. -/
theorem c9_default_arguments :
    hvd_pipeline_default =
      [.run (open_archive default_images_path default_image_archive),
       .run (label default_images_path default_source_dir),
       .run (train default_checkpoints_dir default_model_path default_source_dir),
       .deploy (deploy default_model_name)] ∧
    (open_archive default_images_path default_image_archive).inputs =
      [("archive_url",
        .str "http://iguazio-sample-data.s3.amazonaws.com/catsndogs.zip")] ∧
    (open_archive default_images_path default_image_archive).params =
      [("target_dir", .str "/User/mlrun/examples/images")] ∧
    (open_archive default_images_path default_image_archive).out_path =
      some default_images_path ∧
    (label default_images_path default_source_dir).out_path =
      some default_images_path ∧
    (train default_checkpoints_dir default_model_path default_source_dir).params =
      [("epochs", .int 1),
       ("checkpoints_dir", .str "/User/mlrun/examples/checkpoints"),
       ("model_path", .str "/User/mlrun/examples/models/cats_n_dogs.h5"),
       ("data_path", .str "/User/mlrun/examples/images/cats_n_dogs")] ∧
    (deploy default_model_name).models =
      [("cat_vs_dog_v1", .outputOf "train" "model")] :=
  ⟨rfl, rfl, rfl, rfl, rfl, rfl, rfl⟩

/-- C10 counterexample: the download and label steps do not agree on all
fields outside handler, params, inputs and outputs: their `.after`
dependency lists differ (`[]` for download, `["download"]` for label). -/
theorem c10_counterexample :
    agreesOutsideHandlerParamsInputsOutputs
      (open_archive default_images_path default_image_archive)
      (label default_images_path default_source_dir) = false := by decide

/-- C10 (amended): a single function descriptor (`file_utils`, built
exactly once, from `../src/utils.py`) backs both the `download` step
(handler `open_archive`) and the `label` step (handler
`categories_map_builder`); the two steps share the backing function — hence
its image `mlrun/mlrun:latest` and `v3io` mount — as well as the output
path and applied credentials, and differ only in name, handler, params,
inputs, outputs, and the after-dependency (label runs after download). -/
theorem c10_amended_shared_descriptor (runId ia ip sd : String) :
    (open_archive ip ia).fn = "file_utils" ∧
    (label ip sd).fn = "file_utils" ∧
    (notebookTrace runId).filter (buildsFn "file_utils") =
      [.code_to_function "file_utils" "../src/utils.py"
        "mlrun/mlrun:latest" "job"] ∧
    ((finalState runId).functions.lookup "file_utils").map
      (fun d => (d.image, d.mounts)) =
      some (some "mlrun/mlrun:latest", ["v3io"]) ∧
    (open_archive ip ia).out_path = (label ip sd).out_path ∧
    (open_archive ip ia).applied = (label ip sd).applied ∧
    (open_archive ip ia).handler = some "open_archive" ∧
    (label ip sd).handler = some "categories_map_builder" ∧
    (open_archive ip ia).after = [] ∧
    (label ip sd).after = ["download"] :=
  ⟨rfl, rfl, rfl, rfl, rfl, rfl, rfl, rfl, rfl, rfl⟩

end MlrunPipeNotebook
